import Mathlib

/-!
Shallow embedding of `scripts/generate_synth_ideas.py`: a one-shot generator
that writes a header row plus 1000 catalog rows (ids 1..1000 across ten
thematic domains) to a comma-delimited file.  Randomness is modelled as a
stream of natural-number draws consumed in program order; each primitive of
the `random` module maps to one draw (two for a non-"Synth" role word).
-/

set_option maxRecDepth 100000

/-- One thematic domain of the generator: an inclusive id range and its
prefix, synthesis-type and genre vocabularies (one entry of the `domains`
dict). -/
structure Domain where
  range : Nat × Nat
  prefixes : List String
  synthesis_types : List String
  genres : List String
deriving Inhabited

/-- The ten domain tables, in declaration order, transcribed from the
`domains` dict literal of `scripts/generate_synth_ideas.py`. -/
def domains : List (String × Domain) := [
  ("computer_history",
    { range := (1, 100),
      prefixes := [
        "Modem", "Floppy", "CRT", "Dial-Up", "Dot Matrix", "Punch Card",
        "ENIAC", "BBS", "Hard Drive", "Serial", "Parallel", "Vacuum Tube",
        "Transistor", "Calculator", "Atari", "Teletext", "Fax", "Boot",
        "Command Line", "Tape", "Memory", "Network", "CPU", "Sinclair",
        "TRS-80", "Commodore", "BBC Micro", "Apple II", "Plotter", "OCR",
        "Paper Tape", "Telex", "Morse", "Telegraph", "Rectifier", "Triode",
        "Cathode", "Phosphor", "Scan Line", "NTSC", "Magnetic", "Ferrite",
        "Spark Gap", "Crystal Radio", "Phonograph", "Shellac", "Wax Cylinder", "Bakelite",
        "PCB Trace", "Solder", "Potentiometer", "Stepper", "Servo", "PWM",
        "Capacitor", "Transistor", "Diode", "MOSFET", "Zener", "Thermistor",
        "Photoresistor", "Solar Cell", "LED", "Optocoupler", "LDR", "Tape Saturation",
        "Demagnetization", "Hysteresis", "Eddy Current", "Transformer", "Y2K", "Blue Screen",
        "Defrag", "Dial Tone", "Touch Tone", "Busy Signal", "Ring Cycle", "Off Hook",
        "Area Code", "Long Distance", "Rotary", "Phone Booth", "Answering Machine", "Cordless",
        "Acoustic Coupler", "Party Line", "Operator", "Time Announce", "Weather Service", "Emergency",
        "Payphone", "Phone Card", "Voicemail", "Conference" ],
      synthesis_types := [
        "fm", "subtractive", "wavetable", "granular", "physical_modeling", "additive",
        "sample_based", "feedback", "noise", "hybrid" ],
      genres := [
        "Retro", "Glitch", "Experimental", "Lo-Fi", "Industrial", "Ambient",
        "Chiptune", "Digital" ] }),
  ("vintage_synths",
    { range := (101, 200),
      prefixes := [
        "Moog", "Buchla", "ARP", "Oberheim", "Prophet", "Juno",
        "Jupiter", "TB-303", "TR-808", "TR-909", "Fairlight", "Synclavier",
        "PPG", "DX", "MS-20", "Odyssey", "Serge", "EMS",
        "Korg", "Roland", "Sequential", "Ensoniq", "Kurzweil", "Waldorf",
        "Access", "Clavia", "Novation", "Arturia", "DSI", "Elektron",
        "Teenage", "Modal", "Mutable", "Make Noise", "Intellijel", "Doepfer",
        "Modcan", "Analogue", "Cwejman", "Metasonix", "Macbeth", "Studio Electronics",
        "Vermona", "MFB", "Dreadbox", "Erica", "Pittsburgh", "4ms",
        "Tiptop", "WMD", "Qu-Bit", "Noise Engineering", "Joranalogue", "Instruo",
        "Frap", "Verbos", "Endorphin", "Steady State", "Rossum", "Livestock",
        "ALM", "After Later", "Blue Lantern", "Circuit Abbey", "Dove", "EMW",
        "Future Sound", "Gezeiten", "Happy Nerding", "Industrial Music", "Joranalogue", "Kammerl",
        "LPZW", "Manhattan", "New Systems", "Olegtron", "Paratek", "Qubit",
        "RYO", "SSF", "Tesseract", "Ultrasound", "Void", "WMD",
        "Xaoc", "York", "Zlob", "Atomosynth", "Behringer", "Cre8audio",
        "Error", "Folktek", "G-Storm" ],
      synthesis_types := [
        "hybrid", "subtractive", "fm", "wavetable", "additive", "feedback",
        "noise", "granular", "sample_based", "physical_modeling" ],
      genres := [
        "Synthwave", "Experimental", "Drone", "Ambient", "Techno", "Industrial",
        "Acid", "Progressive" ] }),
  ("natural_phenomena",
    { range := (201, 300),
      prefixes := [
        "Thunder", "Aurora", "Rain", "Wind", "Hurricane", "Blizzard",
        "Earthquake", "Volcanic", "Geothermal", "Crystal", "Cave", "Mineral",
        "Tectonic", "Lava", "Stalactite", "Ocean", "Tsunami", "Deep Sea",
        "Waterfall", "Glacier", "River", "Frozen Lake", "Whirlpool", "Ice",
        "Heartbeat", "Breath", "Neural", "Neuron", "Cell", "DNA",
        "Bacterial", "Amino", "Mitochondria", "Protein", "Organ", "Bone",
        "Forest", "Desert", "Swamp", "Rainforest", "Grassland", "Reef",
        "Fungal", "Coral", "Ant Colony", "Wolf Pack", "Pulsar", "Solar Wind",
        "Black Hole", "Supernova", "Quasar", "Neutron", "Cosmic", "Magnetar",
        "Zodiacal", "Chemical", "Catalyst", "Exothermic", "Crystal", "Oxidation",
        "Fermentation", "Polymer", "Photosynthesis", "Combustion", "Radioactive", "Entropy",
        "Wave", "Harmonic", "Frequency", "Phase", "Doppler", "Acoustic",
        "Overtone", "Spring", "Summer", "Autumn", "Winter", "Thaw",
        "Monsoon", "Dry Season", "Permafrost", "Tidal", "Spring Tide", "Neap Tide",
        "Rip Current", "Undertow", "Ebb Flow", "Coastline", "River Meander", "Sediment",
        "Canyon", "Dune", "Landslide", "Weathering", "Fractal", "Spiral",
        "Fibonacci", "Sunflower" ],
      synthesis_types := [
        "fm", "subtractive", "wavetable", "granular", "physical_modeling", "additive",
        "feedback", "noise", "hybrid", "sample_based" ],
      genres := [
        "Ambient", "Dark Ambient", "Experimental", "Drone", "Cinematic", "Meditative",
        "Natural", "Ethereal" ] }),
  ("industrial",
    { range := (301, 400),
      prefixes := [
        "Gear", "Piston", "Turbine", "Conveyor", "Welding", "Pneumatic",
        "Steam", "Furnace", "Jackhammer", "Transformer", "Relay", "Valve",
        "Grinding", "Chain", "Hydraulic", "Drill", "Stamping", "Factory",
        "Demolition", "Engine", "Motor", "Compressor", "Electromagnetic", "Siren",
        "Saw Blade", "Forging", "Magnetic", "Electrical", "Air Brake", "Compression",
        "Pulse", "Speed Ramp", "Clock", "Rotor", "Spindle", "Lathe",
        "Press", "Roller", "Conveyor", "Hoist", "Crane", "Winch",
        "Pulley", "Lever", "Cam", "Crank", "Flywheel", "Governor",
        "Clutch", "Brake", "Bearing", "Bushing", "Gasket", "Seal",
        "Pump", "Fan", "Blower", "Compressor", "Turbine", "Generator",
        "Alternator", "Dynamo", "Motor", "Engine", "Boiler", "Condenser",
        "Heat Exchanger", "Radiator", "Cooler", "Heater", "Furnace", "Kiln",
        "Oven", "Dryer", "Mixer", "Agitator", "Centrifuge", "Filter",
        "Separator", "Crusher", "Grinder", "Mill", "Shredder", "Chipper",
        "Cutter", "Slicer", "Chopper", "Press", "Extruder", "Molder",
        "Former", "Welder", "Solder", "Riveter", "Bolter", "Screwer",
        "Assembler", "Tester", "Inspector" ],
      synthesis_types := [
        "fm", "subtractive", "wavetable", "granular", "physical_modeling", "additive",
        "noise", "feedback", "hybrid", "sample_based" ],
      genres := [
        "Industrial", "Mechanical", "Dark", "Rhythmic", "Percussion", "Texture",
        "Aggressive", "Ambient" ] }),
  ("scientific",
    { range := (401, 500),
      prefixes := [
        "Superposition", "Entanglement", "Heisenberg", "Schrödinger", "Quantum", "Planck",
        "Wave Function", "Photon", "Antiparticle", "Qubit", "Strange Attractor", "Butterfly",
        "Logistic", "Lorenz", "Mandelbrot", "Bifurcation", "Chaos", "Sensitive",
        "Strange Loop", "Attractor", "Fractal", "Julia", "Sierpinski", "Koch",
        "Apollonian", "Droste", "Barnsley", "Menger", "Möbius", "Klein",
        "Toroidal", "Genus", "Knot", "Handle", "Topological", "Surface",
        "Prime", "Sieve", "RSA", "Fermat", "Goldbach", "Mersenne",
        "Twin Prime", "Riemann", "Modular", "Fibonacci", "Golden Ratio", "Spiral",
        "Phyllotaxis", "Nautilus", "Entropy", "Thermal", "Second Law", "Heat Death",
        "Boltzmann", "Temperature", "Phase Transition", "Equilibrium", "Reversibility", "Black Body",
        "Doppler", "Time Dilation", "Spacetime", "Gravitational", "Light Cone", "Frame Dragging",
        "Relativistic", "Singularity", "String", "Superstring", "Higgs", "Gauge",
        "Quark", "Gluon", "Lepton", "Muon", "Neutrino", "Hadron",
        "Double Slit", "Interference", "Standing Wave", "Node", "Beat Frequency", "Phase Coherence",
        "Diffraction", "Resonance", "Harmonic", "Overtone", "Formant", "Coupled" ],
      synthesis_types := [
        "fm", "wavetable", "additive", "granular", "subtractive", "feedback",
        "hybrid", "noise", "physical_modeling", "sample_based" ],
      genres := [
        "Experimental", "Ambient", "Abstract", "Mathematical", "Psychoacoustic", "Electronic",
        "Drone", "Generative" ] }),
  ("world_instruments",
    { range := (501, 600),
      prefixes := [
        "Gamelan", "Sitar", "Tabla", "Didgeridoo", "Kalimba", "Mbira",
        "Koto", "Shamisen", "Erhu", "Pipa", "Oud", "Santoor",
        "Balalaika", "Bouzouki", "Hurdy Gurdy", "Bagpipe", "Accordion", "Harmonium",
        "Throat Singing", "Overtone", "Bell", "Gong", "Singing Bowl", "Wind Chimes",
        "Music Box", "Carillon", "Glass Harmonica", "Waterphone", "Hang Drum", "Jaw Harp",
        "Bullroarer", "Daegeum", "Hulusi", "Bowed Psaltery", "Steelpan", "Tar",
        "Qin", "Saz", "Ney", "Nai", "Berimbau", "Riq",
        "Doumbek", "Ud", "Kemençe", "Suling", "Bamboo", "Rebab",
        "Cimbalom", "Zither", "Dulcimer", "Autoharp", "Lyre", "Harp",
        "Kantele", "Bandura", "Gusli", "Kokle", "Jouhikko", "Talharpa",
        "Langspil", "Hardingfele", "Nyckelharpa", "Säckpipa", "Seljefløyte", "Bukkehorn",
        "Lur", "Birch Trumpet", "Willow Flute", "Jew\x27s Harp", "Langspil", "Fidla",
        "Þjóðhátíð", "Bumbulum", "Cuíca", "Pandeiro", "Surdo", "Repique",
        "Tamborim", "Agogô", "Ganzá", "Reco-Reco", "Chocalho", "Xequerê",
        "Caxixi", "Afoxé", "Atabaque", "Alfaia", "Zabumba", "Triângulo",
        "Maracatu", "Berimbau", "Conga", "Bongo", "Timbales", "Güiro",
        "Maracas", "Claves" ],
      synthesis_types := [
        "fm", "additive", "physical_modeling", "granular", "wavetable", "sample_based",
        "hybrid", "subtractive", "feedback", "noise" ],
      genres := [
        "World", "Ethnic", "Meditative", "Percussive", "Traditional", "Experimental",
        "Ambient", "Expressive" ] }),
  ("space_cosmic",
    { range := (601, 700),
      prefixes := [
        "Pulsar", "Magnetar", "Neutron", "Quasar", "Black Hole", "Event Horizon",
        "Accretion", "Relativistic", "Hawking", "Supernova", "Stellar", "Cosmic",
        "Solar Wind", "Nebula", "Dust Cloud", "Emission", "Reflection", "Planetary",
        "Pillars", "Dark Nebula", "Solar Flare", "Coronal", "Prominence", "Heliosphere",
        "Photosphere", "Magnetosphere", "Ionosphere", "Radiation Belt", "Solar Cycle", "Aurora",
        "Green Glow", "Van Allen", "Proton Event", "Ray Shower", "Cherenkov", "Bremsstrahlung",
        "Cascade", "Muon Decay", "Saturn Rings", "Cassini", "Shepherd", "Ice Particle",
        "Dust Ring", "Ring Resonance", "Orbital", "Asteroid", "Meteor", "Meteorite",
        "Ablation", "Atmospheric", "Comet", "Nucleus", "Tail", "Sublimation",
        "Coma", "Radio Pulsar", "Radio Quiet", "Pulsar Wind", "Fast Radio", "Repeating FRB",
        "Dispersion", "Pulse Profile", "Radio Morphology", "Synchrotron", "Betatron", "Cyclotron",
        "Plasma", "Birkeland", "Alfven", "Radio Telescope", "Antenna", "Signal",
        "Noise Floor", "Interference", "Microwave Background", "Temperature", "Acoustic Peaks", "Gravitational Wave",
        "Merger", "LIGO", "Ringdown", "Binary", "Dark Matter", "Halo",
        "WIMP", "Axion", "Spaghettification", "Photon Sphere", "Naked Singularity", "White Hole",
        "Wormhole", "Kerr", "Reissner", "Tensor", "Metric", "Christoffel",
        "Ricci", "Einstein" ],
      synthesis_types := [
        "fm", "wavetable", "additive", "granular", "subtractive", "noise",
        "feedback", "hybrid", "sample_based", "physical_modeling" ],
      genres := [
        "Sci-Fi", "Ambient", "Dark", "Cinematic", "Experimental", "Ethereal",
        "Drone", "Generative" ] }),
  ("biological",
    { range := (701, 800),
      prefixes := [
        "Helix", "Ribosome", "Mitochondria", "Synapse", "Heartbeat", "Breathing",
        "Digestion", "Blood", "Muscle", "Bone", "Skin", "Hair",
        "Root", "Photon", "Mycelium", "Spore", "Bacterial", "Viral",
        "Parasite", "Symbiosis", "Metamorphosis", "Cocoon", "Egg", "Birth",
        "Decay", "Decomposition", "Fossil", "Evolution", "Mutation", "Adaptation",
        "Axon", "Dendrite", "Ganglion", "Glial", "Vesicle", "Receptor",
        "Neurotransmitter", "Soma", "Neuropeptide", "Potassium", "Calcium", "GABA",
        "Glutamate", "Dopamine", "Serotonin", "Cortisol", "Adrenaline", "Melatonin",
        "Endorphin", "Oxytocin", "Insulin", "Cortex", "Cerebellum", "Hippocampus",
        "Amygdala", "Thalamus", "Pineal", "Pituitary", "Hypothalamus", "Cerebral",
        "Nerve", "Glial Scar", "White Matter", "Gray Matter", "Synaptogenesis", "Myelin",
        "Membrane", "Vesicular", "Retrograde", "Presynaptic", "Postsynaptic", "Heterosynaptic",
        "Homosynaptic", "Neuromuscular", "Motor Neuron", "Proprioception", "Cutaneous", "Nociception",
        "Thermoreception", "Chemoreception", "Photoreception", "Equilibrium", "Temporal Bone", "Cochlear",
        "Hair Cell", "Vestibular", "Organ of Corti", "Endolymph", "Perilymph", "Stapes",
        "Ossicle", "Ear Canal", "Tympanum", "Auditory Cortex" ],
      synthesis_types := [
        "fm", "feedback", "granular", "wavetable", "additive", "subtractive",
        "hybrid", "noise", "sample_based", "physical_modeling" ],
      genres := [
        "Experimental", "Ambient", "Organic", "Meditative", "Dark", "Electronic",
        "Psychoacoustic", "Generative" ] }),
  ("experimental",
    { range := (801, 900),
      prefixes := [
        "Escher", "Paradox", "Hypnagogic", "Hallucination", "Synesthetic", "Temporal",
        "Parallel", "Glitch Reality", "Inverted", "Recursive", "Impossible", "Ego Death",
        "Consciousness", "Rebirth", "Memory Decay", "Uncanny Valley", "Liminal", "Cosmic Horror",
        "Abstract", "Color-Sound", "Taste-Timbre", "Thought", "Memetic", "Infinite Regression",
        "Broken Physics", "Quantum Superposition", "Time Loop", "Alternate Dimension", "Synapse Misfire", "Void",
        "Möbius", "Dream", "Perception", "Entropy", "Echo Nowhere", "Consciousness Download",
        "Backwards Evolution", "Probability Cloud", "Inverse Mirror", "Nested Consciousness", "Artifact", "Reality Seam",
        "Dreamcatcher", "Letter Frequencies", "Ego Fragment", "Entropy Crystal", "Hyperbolic", "Threshold",
        "Memetic Infection", "Broken Causality", "Alternate Timeline", "Emotion Mapping", "Identity Processor", "Probability",
        "Void Resonance", "Decay Memory", "Shape Tones", "Inverted Envelope", "Eternal Moment", "Parallel Perception",
        "Thought-Space", "Glitch Consciousness", "Backwards Speech", "Membrane", "Echo Chamber", "Kaleidoscope",
        "Void Creature", "Consciousness Cascade", "Scent-Sound", "Entropy Reversal", "Impossible Interval", "Dream Logic",
        "Membrane Between", "Ego Death Progression", "Recursive Dream", "Motion-Sound", "Quantum Foam", "Alternate Logic",
        "Conscious Feedback", "Taste-Color-Sound", "Liminal Dream", "Thought Crystal", "Broken Mirror", "Parallel Leak",
        "Pain-Sound", "Void Echo", "Impossible Object", "Consciousness Threshold", "Recursive Nest", "Dream-Logic",
        "Electromagnetic", "Entropy-Driven", "Perceptual", "Time-Reversed", "Paradox Resonator", "Gravity-Sound",
        "Void Between" ],
      synthesis_types := [
        "fm", "granular", "hybrid", "additive", "noise", "feedback",
        "wavetable", "subtractive", "physical_modeling", "sample_based" ],
      genres := [
        "Experimental", "Ambient", "Weird", "Psychoacoustic", "Glitch", "Surreal",
        "Abstract", "Unsettling" ] }),
  ("generative",
    { range := (901, 1000),
      prefixes := [
        "Conway Life", "Wolfram", "L-System", "Genetic Algorithm", "Markov Chain", "Perlin Noise",
        "Flocking", "Ant Colony", "Lorenz", "Turing Pattern", "Rossler", "Henon",
        "Chua", "Ikeda", "Tent Map", "Baker Map", "Horseshoe", "Arnold",
        "Standard Map", "Chirikov", "Logistic", "Mandelbrot", "Julia", "Newton",
        "Halley", "Householder", "Secant", "Bisection", "False Position", "Fixed Point",
        "Picard", "Banach", "Contraction", "Lipschitz", "Cauchy", "Euler",
        "Runge-Kutta", "Adams", "Milne", "Hamming", "Predictor", "Corrector",
        "Multistep", "Linear Multistep", "Backward Difference", "Gear", "BDF", "Trapezoidal",
        "Midpoint", "Heun", "RK2", "RK4", "RKF45", "Dormand",
        "Prince", "Cash-Karp", "Bogacki", "Shampine", "Fehlberg", "Verner",
        "Butcher", "Singly Diagonal", "Embedded", "Adaptive", "Variable Step", "Dense Output",
        "Continuous", "Interpolating", "Collocation", "Galerkin", "Petrov", "Spectral",
        "Finite Element", "Boundary Element", "Finite Volume", "Finite Difference", "Pseudospectral", "Chebyshev",
        "Legendre", "Hermite", "Laguerre", "Jacobi", "Gegenbauer", "Ultraspherical",
        "Associated Legendre", "Spherical Harmonic", "Zernike", "Bessel", "Hankel", "Neumann",
        "Struve", "Airy", "Scorer", "Kelvin", "Lommel", "Anger",
        "Weber" ],
      synthesis_types := [
        "hybrid", "wavetable", "additive", "granular", "feedback", "noise",
        "fm", "subtractive", "sample_based", "physical_modeling" ],
      genres := [
        "Generative", "Ambient", "Experimental", "Glitch", "Algorithmic", "Chaotic",
        "Self-Organizing", "Emergent" ] })
]

/-- The global 32-entry feature list (`features` in the source). -/
def features : List String := [
  "oscillator coupling", "harmonic mapping", "spectral morphing", "granular density", "feedback routing", "modulation matrix",
  "wavetable scanning", "physical resonance", "envelope shaping", "filter topology", "chaos modulation", "fractal generation",
  "pattern sequencing", "stochastic triggering", "recursive feedback", "harmonic series", "ring modulation", "frequency shifting",
  "phase distortion", "wavefolding", "sample rate reduction", "bit crushing", "spectral freeze", "time stretching",
  "pitch shifting", "formant filtering", "comb filtering", "allpass diffusion", "convolution", "granular freeze",
  "spectral blur", "harmonic excitation" ]

/-- A random source: an infinite stream of natural-number draws.  The
program consumes draws strictly sequentially. -/
abbrev RSrc := Nat → Nat

/-- Advance the random source past one consumed draw. -/
def shift (s : RSrc) : RSrc := fun n => s (n + 1)

/-- Model of `random.choice` / `_randbelow n`: a uniform index in `[0, n)`,
taken as the next draw modulo `n`. -/
def drawBelow (s : RSrc) (n : Nat) : Nat × RSrc := (s 0 % n, shift s)

/-- Model of the comparison `random.random() > 0.5` as a fair coin (the
next draw's parity). -/
def drawCoin (s : RSrc) : Bool × RSrc := (s 0 % 2 == 1, shift s)

/-- Model of `random.randint lo hi` (both bounds inclusive). -/
def drawRandint (s : RSrc) (lo hi : Nat) : Nat × RSrc :=
  (lo + s 0 % (hi - lo + 1), shift s)

/-- Modelled from the library contract of `random.sample(population, k)`
(Python standard-library code, not part of this repository): `k` elements
chosen without replacement, here as `k` successive draws each removing the
chosen element from the remaining pool. -/
def sampleAux : List String → Nat → RSrc → List String × RSrc
  | _, 0, s => ([], s)
  | l, k + 1, s =>
    let j := s 0 % l.length
    let rec_p := sampleAux (l.eraseIdx j) k (shift s)
    (l.getD j "" :: rec_p.1, rec_p.2)

/-- The role-word options of the name f-string: the literal list passed to
`random.choice` when the coin does not produce "Synth". -/
def roleOptions : List String :=
  ["Engine", "Generator", "Oscillator", "Filter", "Processor", "Modulator",
   "Resonator", "Sequencer"]

/-- Model of Python `str.lower` on the interpolated prefixes (ASCII
lowering via `Char.toLower`). -/
def lowerStr (s : String) : String := s.map Char.toLower

/-- The ten description templates of `generate_description`, as functions
of the interpolated prefix (some templates use the prefix as-is, some
lower-cased, exactly as in the source f-strings). -/
def descTemplates (pfx : String) : List String :=
  [pfx ++ "-inspired synthesis with unique timbral characteristics",
   "Models " ++ lowerStr pfx ++ " behavior using advanced DSP techniques",
   pfx ++ " patterns drive oscillator and modulation parameters",
   "Physical modeling of " ++ lowerStr pfx ++ " acoustic properties",
   "Granular processing inspired by " ++ lowerStr pfx ++ " textures",
   "FM synthesis capturing " ++ lowerStr pfx ++ " harmonic relationships",
   "Wavetable morphing based on " ++ lowerStr pfx ++ " waveforms",
   "Additive synthesis recreating " ++ lowerStr pfx ++ " spectra",
   "Feedback network simulating " ++ lowerStr pfx ++ " dynamics",
   "Hybrid synthesis combining multiple " ++ lowerStr pfx ++ " characteristics"]

/-- `generate_description(prefix, domain)`: a uniform-random choice among
the ten templates.  The `domainName` argument is received but never used,
exactly as in the source. -/
def generate_description (pfx : String) (domainName : String) (s : RSrc) :
    String × RSrc :=
  let p := drawBelow s (descTemplates pfx).length
  ((descTemplates pfx).getD p.1 "", p.2)

/-- Boolean prefix test on character lists (helper for the substring test
modelling Python's `in` on strings). -/
def isPrefixB : List Char → List Char → Bool
  | [], _ => true
  | _ :: _, [] => false
  | a :: as, b :: bs => a == b && isPrefixB as bs

/-- Boolean substring test on character lists: model of Python
`pat in s` for strings. -/
def isSubB (pat : List Char) : List Char → Bool
  | [] => isPrefixB pat []
  | c :: rest => isPrefixB pat (c :: rest) || isSubB pat rest

/-- Join a list of strings with a separator, the model of Python
`sep.join(parts)` (used for `";".join(...)` and for comma-joining a csv
line). -/
def joinSep (sep : String) : List String → String
  | [] => ""
  | [x] => x
  | x :: y :: rest => x ++ sep ++ joinSep sep (y :: rest)

/-- One output row of the generated table. -/
structure Row where
  id : Nat
  name : String
  description : String
  synthesis_type : String
  key_feature : String
  genre_tags : String
  weirdness_level : Nat
deriving Repr, DecidableEq, Inhabited

/-- The data driving one row of the generation loop: the owning domain's
key and table, the zero-based position `i` within the domain's range, and
the id `idx`. -/
structure RowInput where
  dname : String
  dom : Domain
  pos : Nat
  idx : Nat
deriving Inhabited

/-- The prefix of a row: `prefixes[i % len(prefixes)]`. -/
def prefixOf (t : RowInput) : String :=
  t.dom.prefixes.getD (t.pos % t.dom.prefixes.length) ""

/-- Assemble one row from its row input and the random source, consuming
draws in the order of the source: name coin (plus role choice when the
coin is low), description template, key feature, three genre picks,
weirdness. -/
def genRow (t : RowInput) (s : RSrc) : Row × RSrc :=
  let pfx := prefixOf t
  let coin := (drawCoin s).1
  let s1 := (drawCoin s).2
  let rw := if coin then "Synth"
            else roleOptions.getD (drawBelow s1 roleOptions.length).1 ""
  let s2 := if coin then s1 else (drawBelow s1 roleOptions.length).2
  let dp := generate_description pfx t.dname s2
  let st := t.dom.synthesis_types.getD (t.pos % t.dom.synthesis_types.length) ""
  let fp := drawBelow dp.2 features.length
  let gp := sampleAux t.dom.genres (min 3 t.dom.genres.length) fp.2
  let wp := if isSubB "experimental".data t.dname.data
            then drawRandint gp.2 6 10 else drawRandint gp.2 2 9
  (⟨t.idx, pfx ++ " " ++ rw, dp.1, st, features.getD fp.1 "",
    joinSep ";" gp.1, wp.1⟩, wp.2)

/-- Generate the rows for a list of row inputs, threading the random
source left to right. -/
def genRows : List RowInput → RSrc → List Row
  | [], _ => []
  | t :: ts, s =>
    let p := genRow t s
    p.1 :: genRows ts p.2

/-- The row inputs contributed by one domain: positions `0..(end-start)`
paired with ids `start..end` (the `enumerate(range(start, end + 1))` of
the source). -/
def segInputs (name : String) (d : Domain) : List RowInput :=
  (List.range (d.range.2 - d.range.1 + 1)).map fun i =>
    ⟨name, d, i, d.range.1 + i⟩

/-- All 1000 row inputs, domains in declaration order. -/
def rowInputs : List RowInput :=
  (domains.map fun p => segInputs p.1 p.2).flatten

/-- The header fields written by `writer.writerow([...])`. -/
def headerFields : List String :=
  ["id", "name", "description", "synthesis_type", "key_feature",
   "genre_tags", "weirdness_level"]

/-- Does a csv field need quoting under the default minimal-quoting
dialect (field contains the delimiter, the quote char, or a line
terminator char)? -/
def needsQuote (s : String) : Bool :=
  s.data.any fun c => c == ',' || c == '"' || c == '\n' || c == '\r'

/-- Double every quote character in a field (csv escaping). -/
def escField (s : String) : String :=
  ⟨s.data.flatMap fun c => if c == '"' then ['"', '"'] else [c]⟩

/-- Render one csv field: quoted and escaped exactly when needed. -/
def csvField (s : String) : String :=
  if needsQuote s then "\"" ++ escField s ++ "\"" else s

/-- Render one csv line from its fields, comma-delimited. -/
def csvLine (fs : List String) : String := joinSep "," (fs.map csvField)

/-- The seven field strings of one data row, numbers via `toString` as the
csv writer stringifies them. -/
def rowFields (r : Row) : List String :=
  [toString r.id, r.name, r.description, r.synthesis_type, r.key_feature,
   r.genre_tags, toString r.weirdness_level]

/-- The lines of the output file: the header line followed by the 1000
data lines, in generation order. -/
def outputLines (s : RSrc) : List String :=
  csvLine headerFields :: (genRows rowInputs s).map fun r => csvLine (rowFields r)

/-- The full output file as one string, lines terminated by the csv
writer's default terminator. -/
def renderFile (s : RSrc) : String :=
  String.join ((outputLines s).map fun l => l ++ "\r\n")

/-- Split a character list at semicolons (the reading direction of the
claim that `genre_tags` splits back into its sampled genres). -/
def splitSemi : List Char → List (List Char)
  | [] => [[]]
  | c :: rest =>
    if c = ';' then [] :: splitSemi rest
    else
      match splitSemi rest with
      | [] => [[c]]
      | p :: ps => (c :: p) :: ps

/-- Join character lists with a semicolon between consecutive parts. -/
def charJoinSemi : List (List Char) → List Char
  | [] => []
  | [p] => p
  | p :: q :: ps => p ++ ';' :: charJoinSemi (q :: ps)

/-- The fixed ten-value synthesis-type vocabulary named by the spec. -/
def synthVocab : List String :=
  ["fm", "subtractive", "wavetable", "granular", "physical_modeling",
   "additive", "sample_based", "feedback", "noise", "hybrid"]

/-- The role word as a function of the two randomization outcomes of the
name f-string: the coin, and (when the coin is low) the uniform choice
among the eight options of `roleOptions`. -/
def roleWordOf : Bool × Fin 8 → String
  | (true, _) => "Synth"
  | (false, j) => roleOptions.getD j ""

/-- The probability of a given role word under a fair coin paired with a
uniform choice among the eight options: outcome counting over the sixteen
equiprobable points of `Bool × Fin 8`. -/
def roleProb (w : String) : ℚ :=
  ((Finset.univ.filter fun o : Bool × Fin 8 => roleWordOf o = w).card : ℚ) / 16

/-- The n-th emitted data row of a run (out of range: the default row). -/
def rowAt (s : RSrc) (n : Nat) : Row := (genRows rowInputs s).getD n default

/-! ### Structural lemmas about the generation loop -/

theorem genRows_length (L : List RowInput) (s : RSrc) :
    (genRows L s).length = L.length := by
  induction L generalizing s with
  | nil => rfl
  | cons t ts ih => simp [genRows, ih]

theorem genRows_getD (L : List RowInput) (s : RSrc) (n : Nat)
    (hn : n < L.length) :
    ∃ s2, (genRows L s).getD n default = (genRow (L.getD n default) s2).1 := by
  induction L generalizing s n with
  | nil => simp at hn
  | cons t ts ih =>
    cases n with
    | zero => exact ⟨s, rfl⟩
    | succ n =>
      simpa [genRows, List.getD_cons_succ] using
        ih (genRow t s).2 n (by simpa using hn)

theorem rowInputs_length : rowInputs.length = 1000 := by decide

theorem rowInputs_map_idx : rowInputs.map RowInput.idx = List.range' 1 1000 := by
  decide

/-- Per-domain facts of the literal tables, checked by evaluation. -/
theorem domains_facts : ∀ p ∈ domains,
    p.2.range.1 ≤ p.2.range.2 ∧
    p.2.prefixes ≠ [] ∧
    p.2.synthesis_types.length = 10 ∧
    p.2.genres.length = 8 ∧
    p.2.genres.Nodup ∧
    (∀ g ∈ p.2.genres, ';' ∉ g.data) ∧
    (∀ x ∈ p.2.synthesis_types, x ∈ synthVocab) ∧
    (isSubB "experimental".data p.1.data = true ↔
      p.2.range.1 = 801 ∧ p.2.range.2 = 900) ∧
    (isSubB "experimental".data p.1.data = false →
      p.2.range.2 < 801 ∨ 900 < p.2.range.1) := by decide

theorem mem_rowInputs_spec (t : RowInput) (ht : t ∈ rowInputs) :
    ∃ p ∈ domains, t.dname = p.1 ∧ t.dom = p.2 ∧
      p.2.range.1 ≤ t.idx ∧ t.idx ≤ p.2.range.2 := by
  rw [rowInputs, List.mem_flatten] at ht
  obtain ⟨l, hl, htl⟩ := ht
  rw [List.mem_map] at hl
  obtain ⟨p, hp, rfl⟩ := hl
  rw [segInputs, List.mem_map] at htl
  obtain ⟨i, hi, rfl⟩ := htl
  rw [List.mem_range] at hi
  refine ⟨p, hp, rfl, rfl, Nat.le_add_right _ _, ?_⟩
  have h1 : p.2.range.1 ≤ p.2.range.2 := (domains_facts p hp).1
  have h2 : i ≤ p.2.range.2 - p.2.range.1 := Nat.lt_succ_iff.mp hi
  calc p.2.range.1 + i ≤ p.2.range.1 + (p.2.range.2 - p.2.range.1) :=
        Nat.add_le_add_left h2 _
    _ = p.2.range.2 := Nat.add_sub_cancel' h1

theorem getD_rowInputs_spec (n : Nat) (hn : n < rowInputs.length) :
    ∃ p ∈ domains, (rowInputs.getD n default).dname = p.1 ∧
      (rowInputs.getD n default).dom = p.2 ∧
      p.2.range.1 ≤ (rowInputs.getD n default).idx ∧
      (rowInputs.getD n default).idx ≤ p.2.range.2 := by
  apply mem_rowInputs_spec
  rw [List.getD_eq_getElem rowInputs default hn]
  exact List.getElem_mem hn

/-! ### Field lemmas about one generated row -/

theorem genRow_id (t : RowInput) (s : RSrc) : (genRow t s).1.id = t.idx := rfl

theorem genRow_synth (t : RowInput) (s : RSrc) :
    (genRow t s).1.synthesis_type =
      t.dom.synthesis_types.getD (t.pos % t.dom.synthesis_types.length) "" := rfl

theorem genRow_name_eq (t : RowInput) (s : RSrc) :
    (genRow t s).1.name = prefixOf t ++ " " ++
      (if (drawCoin s).1 then "Synth"
       else roleOptions.getD (drawBelow (drawCoin s).2 roleOptions.length).1 "") := rfl

theorem genRow_name_ex (t : RowInput) (s : RSrc) :
    ∃ rw ∈ "Synth" :: roleOptions,
      (genRow t s).1.name = prefixOf t ++ " " ++ rw := by
  rw [genRow_name_eq]
  by_cases h : (drawCoin s).1
  · exact ⟨"Synth", List.mem_cons_self _ _, by rw [if_pos h]⟩
  · refine ⟨roleOptions.getD (drawBelow (drawCoin s).2 roleOptions.length).1 "",
      List.mem_cons_of_mem _ ?_, by rw [if_neg h]⟩
    have hlt : (drawBelow (drawCoin s).2 roleOptions.length).1 < roleOptions.length :=
      Nat.mod_lt _ (by decide)
    rw [List.getD_eq_getElem _ _ hlt]
    exact List.getElem_mem hlt

theorem genRow_desc_ex (t : RowInput) (s : RSrc) :
    ∃ s2, (genRow t s).1.description =
      (generate_description (prefixOf t) t.dname s2).1 := ⟨_, rfl⟩

theorem genRow_feature_ex (t : RowInput) (s : RSrc) :
    ∃ s2 : RSrc, (genRow t s).1.key_feature =
      features.getD (s2 0 % features.length) "" := ⟨_, rfl⟩

theorem genRow_genre_ex (t : RowInput) (s : RSrc) :
    ∃ s2, (genRow t s).1.genre_tags =
      joinSep ";" (sampleAux t.dom.genres (min 3 t.dom.genres.length) s2).1 :=
  ⟨_, rfl⟩

theorem genRow_weird_eq (t : RowInput) (s : RSrc) :
    ∃ s2 : RSrc, (genRow t s).1.weirdness_level =
      (if isSubB "experimental".data t.dname.data
       then drawRandint s2 6 10 else drawRandint s2 2 9).1 := ⟨_, rfl⟩

/-! ### Sampling without replacement -/

theorem getD_not_mem_eraseIdx (l : List String) (j : Nat) (hnd : l.Nodup)
    (hj : j < l.length) : l.getD j "" ∉ l.eraseIdx j := by
  induction l generalizing j with
  | nil => simp at hj
  | cons x xs ih =>
    have hx : x ∉ xs := (List.nodup_cons.mp hnd).1
    have hnd2 : xs.Nodup := (List.nodup_cons.mp hnd).2
    cases j with
    | zero => simpa [List.eraseIdx] using hx
    | succ j =>
      have hj2 : j < xs.length := by simpa using hj
      simp only [List.getD_cons_succ, List.eraseIdx_cons_succ]
      intro hmem
      rcases List.mem_cons.mp hmem with h | h
      · have hm : xs.getD j "" ∈ xs := by
          rw [List.getD_eq_getElem _ _ hj2]; exact List.getElem_mem hj2
        exact hx (h ▸ hm)
      · exact ih j hnd2 hj2 h

theorem sampleAux_spec (k : Nat) :
    ∀ (l : List String) (s : RSrc), l.Nodup → k ≤ l.length →
      (sampleAux l k s).1.length = k ∧ (sampleAux l k s).1.Nodup ∧
        ∀ x ∈ (sampleAux l k s).1, x ∈ l := by
  induction k with
  | zero =>
    intro l s _ _
    exact ⟨rfl, List.nodup_nil, by intro x hx; simp [sampleAux] at hx⟩
  | succ k ih =>
    intro l s hnd hk
    have hl : 0 < l.length := Nat.lt_of_lt_of_le (Nat.succ_pos k) hk
    have hjlt : s 0 % l.length < l.length := Nat.mod_lt _ hl
    have hsub : (l.eraseIdx (s 0 % l.length)).Sublist l :=
      List.eraseIdx_sublist l (s 0 % l.length)
    have hnd2 : (l.eraseIdx (s 0 % l.length)).Nodup := hsub.nodup hnd
    have hlen2 : (l.eraseIdx (s 0 % l.length)).length = l.length - 1 := by
      rw [List.length_eraseIdx]; simp [hjlt]
    have hk2 : k ≤ (l.eraseIdx (s 0 % l.length)).length := by omega
    obtain ⟨ih1, ih2, ih3⟩ := ih (l.eraseIdx (s 0 % l.length)) (shift s) hnd2 hk2
    have hhead : l.getD (s 0 % l.length) "" ∈ l := by
      rw [List.getD_eq_getElem _ _ hjlt]; exact List.getElem_mem hjlt
    have hdef : sampleAux l (k + 1) s =
        (l.getD (s 0 % l.length) "" ::
          (sampleAux (l.eraseIdx (s 0 % l.length)) k (shift s)).1,
         (sampleAux (l.eraseIdx (s 0 % l.length)) k (shift s)).2) := rfl
    rw [hdef]
    refine ⟨by simp [ih1], ?_, ?_⟩
    · rw [List.nodup_cons]
      exact ⟨fun hmem => getD_not_mem_eraseIdx l _ hnd hjlt (ih3 _ hmem), ih2⟩
    · intro x hx
      rcases List.mem_cons.mp hx with h | h
      · exact h ▸ hhead
      · exact hsub.subset (ih3 x h)

/-! ### Splitting a semicolon join -/

theorem splitSemi_no_semi (a : List Char) (h : ';' ∉ a) : splitSemi a = [a] := by
  induction a with
  | nil => rfl
  | cons c rest ih =>
    have hc : ¬(c = ';') := fun hh => h (hh ▸ List.mem_cons_self c rest)
    have hrest : ';' ∉ rest := fun hh => h (List.mem_cons_of_mem _ hh)
    simp [splitSemi, hc, ih hrest]

theorem splitSemi_append (a rest : List Char) (h : ';' ∉ a) :
    splitSemi (a ++ ';' :: rest) = a :: splitSemi rest := by
  induction a with
  | nil => simp [splitSemi]
  | cons c as ih =>
    have hc : ¬(c = ';') := fun hh => h (hh ▸ List.mem_cons_self c as)
    have has : ';' ∉ as := fun hh => h (List.mem_cons_of_mem _ hh)
    simp [splitSemi, hc, ih has]

theorem splitSemi_charJoin (parts : List (List Char)) (hne : parts ≠ [])
    (h : ∀ p ∈ parts, ';' ∉ p) : splitSemi (charJoinSemi parts) = parts := by
  induction parts with
  | nil => exact absurd rfl hne
  | cons p ps ih =>
    cases ps with
    | nil =>
      simpa [charJoinSemi] using splitSemi_no_semi p (h p (List.mem_cons_self _ _))
    | cons q qs =>
      rw [show charJoinSemi (p :: q :: qs) = p ++ ';' :: charJoinSemi (q :: qs) from rfl]
      rw [splitSemi_append _ _ (h p (List.mem_cons_self _ _))]
      rw [ih (by simp) fun r hr => h r (List.mem_cons_of_mem _ hr)]

theorem joinSep_semi_data (l : List String) :
    (joinSep ";" l).data = charJoinSemi (l.map String.data) := by
  induction l with
  | nil => rfl
  | cons x xs ih =>
    cases xs with
    | nil => rfl
    | cons y ys =>
      rw [show joinSep ";" (x :: y :: ys) = x ++ ";" ++ joinSep ";" (y :: ys) from rfl]
      rw [String.data_append, String.data_append, ih]
      rw [show (List.map String.data (x :: y :: ys)) =
        x.data :: List.map String.data (y :: ys) from rfl]
      rw [show charJoinSemi (x.data :: List.map String.data (y :: ys)) =
        x.data ++ ';' :: charJoinSemi (List.map String.data (y :: ys)) from ?_]
      · simp
      · cases ys <;> rfl

theorem genRows_map_id (L : List RowInput) (s : RSrc) :
    (genRows L s).map Row.id = L.map RowInput.idx := by
  induction L generalizing s with
  | nil => rfl
  | cons t ts ih => simp [genRows, genRow_id, ih]

/-! ### The claims -/

/-- C1: every run's output is one header row followed by exactly 1000 data
rows; the data-row ids are exactly the set {1,...,1000} and strictly
increase in output order (domains in declaration order, ids ascending
within each domain). -/
theorem claim_C1 (s : RSrc) :
    (outputLines s).length = 1001 ∧
    (outputLines s).head? = some (csvLine headerFields) ∧
    (genRows rowInputs s).map Row.id = List.range' 1 1000 ∧
    List.Chain' (· < ·) ((genRows rowInputs s).map Row.id) ∧
    (∀ n, n ∈ (genRows rowInputs s).map Row.id ↔ 1 ≤ n ∧ n ≤ 1000) := by
  have hmap : (genRows rowInputs s).map Row.id = List.range' 1 1000 := by
    rw [genRows_map_id, rowInputs_map_idx]
  refine ⟨?_, rfl, hmap, ?_, ?_⟩
  · simp [outputLines, genRows_length, rowInputs_length]
  · rw [hmap]; exact (List.pairwise_lt_range' 1 1000).chain'
  · intro n; rw [hmap, List.mem_range'_1]; omega

/-- C2 counterexample: the non-"Synth" role-word list of the source has
eight options, not seven, and a non-"Synth" word has probability 1/16,
not 1/14. -/
theorem claim_C2_counterexample :
    roleOptions.length = 8 ∧ roleOptions.length ≠ 7 ∧
    roleProb "Engine" = 1 / 16 ∧ roleProb "Engine" ≠ 1 / 14 := by
  have hc : (Finset.univ.filter fun o : Bool × Fin 8 =>
      roleWordOf o = "Engine").card = 1 := by decide
  refine ⟨rfl, by decide, ?_, ?_⟩
  · rw [roleProb, hc]; norm_num
  · rw [roleProb, hc]; norm_num

/-- C2 (amended): every row's name is the resolved prefix, a space and a
role word; the role word is "Synth" with probability 1/2 and otherwise a
uniform-random choice among the eight options {"Engine", "Generator",
"Oscillator", "Filter", "Processor", "Modulator", "Resonator",
"Sequencer"}, so each non-"Synth" word has probability 1/16. -/
theorem claim_C2 (s : RSrc) (n : Nat) (hn : n < rowInputs.length) :
    (∃ rw ∈ "Synth" :: roleOptions,
      (rowAt s n).name = prefixOf (rowInputs.getD n default) ++ " " ++ rw) ∧
    roleProb "Synth" = 1 / 2 ∧
    (∀ w ∈ roleOptions, roleProb w = 1 / 16) ∧
    roleOptions.length = 8 := by
  obtain ⟨s2, hs2⟩ := genRows_getD rowInputs s n hn
  have hcard : ∀ w ∈ roleOptions, (Finset.univ.filter fun o : Bool × Fin 8 =>
      roleWordOf o = w).card = 1 := by decide
  refine ⟨?_, ?_, ?_, rfl⟩
  · show ∃ rw ∈ "Synth" :: roleOptions,
      ((genRows rowInputs s).getD n default).name =
        prefixOf (rowInputs.getD n default) ++ " " ++ rw
    rw [hs2]
    exact genRow_name_ex _ s2
  · rw [roleProb, show (Finset.univ.filter fun o : Bool × Fin 8 =>
      roleWordOf o = "Synth").card = 8 by decide]
    norm_num
  · intro w hw
    rw [roleProb, hcard w hw]
    norm_num

/-- Witness for the amended C2 at the all-zero random source and the first
row. -/
theorem claim_C2_witness :
    (∃ rw ∈ "Synth" :: roleOptions,
      (rowAt (fun _ => 0) 0).name = prefixOf (rowInputs.getD 0 default) ++ " " ++ rw) ∧
    roleProb "Synth" = 1 / 2 ∧
    (∀ w ∈ roleOptions, roleProb w = 1 / 16) ∧
    roleOptions.length = 8 :=
  claim_C2 (fun _ => 0) 0 (by decide)

/-- C3 counterexample: the computer_history prefix list has 94 entries, so
the prefix of id 100 (zero-based position 99) is entry 99 mod 94 = 5,
"Punch Card", and not the last entry "Conference". -/
theorem claim_C3_counterexample :
    (rowInputs.getD 99 default).idx = 100 ∧
    (rowInputs.getD 99 default).dom.prefixes.length = 94 ∧
    prefixOf (rowInputs.getD 99 default) = "Punch Card" ∧
    prefixOf (rowInputs.getD 99 default) ≠ "Conference" := by decide

/-- C3 (amended): for id 1 (position 0 of computer_history) the prefix is
"Modem" and the synthesis_type is "fm"; for id 100 (position 99) the
prefix is prefixes[99 mod 94] = "Punch Card", the computer_history prefix
list having 94 entries whose last is "Conference". -/
theorem claim_C3 (s : RSrc) :
    (rowAt s 0).id = 1 ∧
    prefixOf (rowInputs.getD 0 default) = "Modem" ∧
    (rowAt s 0).synthesis_type = "fm" ∧
    (∃ rw ∈ "Synth" :: roleOptions,
      (rowAt s 0).name = prefixOf (rowInputs.getD 0 default) ++ " " ++ rw) ∧
    (rowAt s 99).id = 100 ∧
    prefixOf (rowInputs.getD 99 default) = "Punch Card" ∧
    (∃ rw ∈ "Synth" :: roleOptions,
      (rowAt s 99).name = prefixOf (rowInputs.getD 99 default) ++ " " ++ rw) ∧
    (rowInputs.getD 99 default).dom.prefixes.length = 94 ∧
    (rowInputs.getD 99 default).dom.prefixes.getLast? = some "Conference" := by
  obtain ⟨sa, ha⟩ := genRows_getD rowInputs s 0 (by rw [rowInputs_length]; omega)
  obtain ⟨sb, hb⟩ := genRows_getD rowInputs s 99 (by rw [rowInputs_length]; omega)
  have hra : rowAt s 0 = (genRow (rowInputs.getD 0 default) sa).1 := by
    simp only [rowAt]; exact ha
  have hrb : rowAt s 99 = (genRow (rowInputs.getD 99 default) sb).1 := by
    simp only [rowAt]; exact hb
  refine ⟨?_, by decide, ?_, ?_, ?_, by decide, ?_, by decide, by decide⟩
  · rw [hra, genRow_id]; decide
  · rw [hra, genRow_synth]; decide
  · rw [hra]; exact genRow_name_ex _ sa
  · rw [hrb, genRow_id]; decide
  · rw [hrb]; exact genRow_name_ex _ sb

/-- C4: rows owned by the experimental domain (ids 801..900) carry a
weirdness level in [6,10]; every other row carries one in [2,9]. -/
theorem claim_C4 (s : RSrc) (n : Nat) (hn : n < rowInputs.length) :
    ((801 ≤ (rowAt s n).id ∧ (rowAt s n).id ≤ 900) →
      6 ≤ (rowAt s n).weirdness_level ∧ (rowAt s n).weirdness_level ≤ 10) ∧
    (¬(801 ≤ (rowAt s n).id ∧ (rowAt s n).id ≤ 900) →
      2 ≤ (rowAt s n).weirdness_level ∧ (rowAt s n).weirdness_level ≤ 9) := by
  obtain ⟨s2, hs2⟩ := genRows_getD rowInputs s n hn
  obtain ⟨p, hp, hdn, hdom, hlo, hhi⟩ := getD_rowInputs_spec n hn
  obtain ⟨h1, h2, h3, h4, h5, h6, h7, h8, h9⟩ := domains_facts p hp
  obtain ⟨s3, hw⟩ := genRow_weird_eq (rowInputs.getD n default) s2
  have hra : rowAt s n = (genRow (rowInputs.getD n default) s2).1 := by
    simp only [rowAt]; exact hs2
  have hid : (rowAt s n).id = (rowInputs.getD n default).idx := by
    rw [hra, genRow_id]
  by_cases hexp : isSubB "experimental".data (rowInputs.getD n default).dname.data = true
  · have hw2 : (rowAt s n).weirdness_level = (drawRandint s3 6 10).1 := by
      rw [hra, hw, if_pos hexp]
    have hb : 6 ≤ (rowAt s n).weirdness_level ∧ (rowAt s n).weirdness_level ≤ 10 := by
      rw [hw2]; simp only [drawRandint]; omega
    have hrange : 801 ≤ (rowAt s n).id ∧ (rowAt s n).id ≤ 900 := by
      rw [hdn] at hexp
      obtain ⟨he1, he2⟩ := h8.mp hexp
      rw [hid]; omega
    exact ⟨fun _ => hb, fun hc => absurd hrange hc⟩
  · have hw2 : (rowAt s n).weirdness_level = (drawRandint s3 2 9).1 := by
      rw [hra, hw, if_neg hexp]
    have hb : 2 ≤ (rowAt s n).weirdness_level ∧ (rowAt s n).weirdness_level ≤ 9 := by
      rw [hw2]; simp only [drawRandint]; omega
    have hfalse : isSubB "experimental".data p.1.data = false := by
      rw [hdn] at hexp
      exact Bool.not_eq_true _ ▸ (Bool.eq_false_iff.mpr hexp)
    have hnot : ¬(801 ≤ (rowAt s n).id ∧ (rowAt s n).id ≤ 900) := by
      rcases h9 hfalse with h | h <;> · rw [hid]; omega
    exact ⟨fun hc => absurd hc hnot, fun _ => hb⟩

/-- Witness for C4 at the all-zero random source and the first row. -/
theorem claim_C4_witness :
    ((801 ≤ (rowAt (fun _ => 0) 0).id ∧ (rowAt (fun _ => 0) 0).id ≤ 900) →
      6 ≤ (rowAt (fun _ => 0) 0).weirdness_level ∧
        (rowAt (fun _ => 0) 0).weirdness_level ≤ 10) ∧
    (¬(801 ≤ (rowAt (fun _ => 0) 0).id ∧ (rowAt (fun _ => 0) 0).id ≤ 900) →
      2 ≤ (rowAt (fun _ => 0) 0).weirdness_level ∧
        (rowAt (fun _ => 0) 0).weirdness_level ≤ 9) :=
  claim_C4 (fun _ => 0) 0 (by decide)

/-- C5: every row's genre_tags is the semicolon join of min(3, number of
genres) pairwise-distinct entries sampled from the owning domain's genre
list; every domain declares at least 3 genres, so the field splits at the
semicolons into exactly three distinct strings, each one a genre of the
owning domain. -/
theorem claim_C5 (s : RSrc) (n : Nat) (hn : n < rowInputs.length) :
    ∃ p ∈ domains,
      (rowInputs.getD n default).dom = p.2 ∧
      3 ≤ p.2.genres.length ∧
      (splitSemi (rowAt s n).genre_tags.data).length = 3 ∧
      (splitSemi (rowAt s n).genre_tags.data).Nodup ∧
      ∀ x ∈ splitSemi (rowAt s n).genre_tags.data,
        ∃ g ∈ p.2.genres, x = g.data := by
  obtain ⟨s2, hs2⟩ := genRows_getD rowInputs s n hn
  obtain ⟨p, hp, hdn, hdom, hlo, hhi⟩ := getD_rowInputs_spec n hn
  obtain ⟨h1, h2, h3, h4, h5, h6, h7, h8, h9⟩ := domains_facts p hp
  obtain ⟨s3, hg⟩ := genRow_genre_ex (rowInputs.getD n default) s2
  have hra : rowAt s n = (genRow (rowInputs.getD n default) s2).1 := by
    simp only [rowAt]; exact hs2
  have hglen : (rowInputs.getD n default).dom.genres.length = 8 := by
    rw [hdom]; exact h4
  have hmin : min 3 (rowInputs.getD n default).dom.genres.length = 3 := by
    rw [hglen]; decide
  rw [hmin] at hg
  have hgnd : (rowInputs.getD n default).dom.genres.Nodup := by
    rw [hdom]; exact h5
  obtain ⟨hsl, hsnd, hsmem⟩ :=
    sampleAux_spec 3 (rowInputs.getD n default).dom.genres s3 hgnd (by omega)
  have hglne : (sampleAux (rowInputs.getD n default).dom.genres 3 s3).1 ≠ [] := by
    intro hnil; rw [hnil] at hsl; simp at hsl
  have hfree : ∀ q ∈ (sampleAux (rowInputs.getD n default).dom.genres 3 s3).1.map
      String.data, ';' ∉ q := by
    intro q hq
    obtain ⟨g, hgm, rfl⟩ := List.mem_map.mp hq
    exact h6 g (hdom ▸ hsmem g hgm)
  have hsplit : splitSemi (rowAt s n).genre_tags.data =
      (sampleAux (rowInputs.getD n default).dom.genres 3 s3).1.map String.data := by
    rw [hra, hg, joinSep_semi_data]
    exact splitSemi_charJoin _ (fun hh => hglne (List.map_eq_nil_iff.mp hh)) hfree
  refine ⟨p, hp, hdom, by omega, ?_, ?_, ?_⟩
  · rw [hsplit, List.length_map, hsl]
  · rw [hsplit]
    exact List.Nodup.map (fun a b hab => String.ext hab) hsnd
  · intro x hx
    rw [hsplit] at hx
    obtain ⟨g, hgm, rfl⟩ := List.mem_map.mp hx
    exact ⟨g, hdom ▸ hsmem g hgm, rfl⟩

/-- Witness for C5 at the all-zero random source and the first row. -/
theorem claim_C5_witness :
    ∃ p ∈ domains,
      (rowInputs.getD 0 default).dom = p.2 ∧
      3 ≤ p.2.genres.length ∧
      (splitSemi (rowAt (fun _ => 0) 0).genre_tags.data).length = 3 ∧
      (splitSemi (rowAt (fun _ => 0) 0).genre_tags.data).Nodup ∧
      ∀ x ∈ splitSemi (rowAt (fun _ => 0) 0).genre_tags.data,
        ∃ g ∈ p.2.genres, x = g.data :=
  claim_C5 (fun _ => 0) 0 (by decide)

/-- C6: every row's synthesis_type equals the owning domain's
synthesis-type list indexed at (position mod list length), and is a
member of the fixed ten-value vocabulary. -/
theorem claim_C6 (s : RSrc) (n : Nat) (hn : n < rowInputs.length) :
    (rowAt s n).synthesis_type ∈ synthVocab ∧
    (rowAt s n).synthesis_type =
      (rowInputs.getD n default).dom.synthesis_types.getD
        ((rowInputs.getD n default).pos %
          (rowInputs.getD n default).dom.synthesis_types.length) "" := by
  obtain ⟨s2, hs2⟩ := genRows_getD rowInputs s n hn
  obtain ⟨p, hp, hdn, hdom, hlo, hhi⟩ := getD_rowInputs_spec n hn
  obtain ⟨h1, h2, h3, h4, h5, h6, h7, h8, h9⟩ := domains_facts p hp
  have hra : rowAt s n = (genRow (rowInputs.getD n default) s2).1 := by
    simp only [rowAt]; exact hs2
  have heq : (rowAt s n).synthesis_type =
      (rowInputs.getD n default).dom.synthesis_types.getD
        ((rowInputs.getD n default).pos %
          (rowInputs.getD n default).dom.synthesis_types.length) "" := by
    rw [hra, genRow_synth]
  refine ⟨?_, heq⟩
  rw [heq, hdom]
  have hpos : (rowInputs.getD n default).pos % p.2.synthesis_types.length <
      p.2.synthesis_types.length := Nat.mod_lt _ (by rw [h3]; omega)
  rw [List.getD_eq_getElem _ _ hpos]
  exact h7 _ (List.getElem_mem hpos)

/-- Witness for C6 at the all-zero random source and the first row. -/
theorem claim_C6_witness :
    (rowAt (fun _ => 0) 0).synthesis_type ∈ synthVocab ∧
    (rowAt (fun _ => 0) 0).synthesis_type =
      (rowInputs.getD 0 default).dom.synthesis_types.getD
        ((rowInputs.getD 0 default).pos %
          (rowInputs.getD 0 default).dom.synthesis_types.length) "" :=
  claim_C6 (fun _ => 0) 0 (by decide)

/-- C7: the output is comma-delimited with minimally-quoted fields, its
first line is exactly the declared header, and it is followed by exactly
1000 data lines, one per generated row, ids ascending. -/
theorem claim_C7 (s : RSrc) :
    csvLine headerFields =
      "id,name,description,synthesis_type,key_feature,genre_tags,weirdness_level" ∧
    (outputLines s).head? = some (csvLine headerFields) ∧
    (outputLines s).length = 1001 ∧
    (outputLines s).tail =
      (genRows rowInputs s).map (fun r => csvLine (rowFields r)) ∧
    (genRows rowInputs s).map Row.id = List.range' 1 1000 := by
  refine ⟨by decide, rfl, ?_, rfl, ?_⟩
  · simp [outputLines, genRows_length, rowInputs_length]
  · rw [genRows_map_id, rowInputs_map_idx]

/-- C8: the generator is a pure function of its random source: two runs
whose sources agree at every draw produce byte-identical output, so only
the documented random-choice points influence the result. -/
theorem claim_C8 (s1 s2 : RSrc) (h : ∀ n, s1 n = s2 n) :
    renderFile s1 = renderFile s2 ∧ outputLines s1 = outputLines s2 := by
  have he : s1 = s2 := funext h
  rw [he]
  exact ⟨rfl, rfl⟩

/-- Witness for C8 at the all-zero random source. -/
theorem claim_C8_witness :
    renderFile (fun _ => 0) = renderFile (fun _ => 0) ∧
    outputLines (fun _ => 0) = outputLines (fun _ => 0) :=
  claim_C8 (fun _ => 0) (fun _ => 0) (fun _ => rfl)

/-- C9: every row's description is a uniform-random choice among exactly
ten fixed sentence templates, each interpolating the row's prefix
(original case or lower-cased exactly per template), and the template set
never references the owning domain's identifier (the `domain` argument of
`generate_description` is ignored). -/
theorem claim_C9 (s : RSrc) (n : Nat) (hn : n < rowInputs.length) :
    (descTemplates (prefixOf (rowInputs.getD n default))).length = 10 ∧
    (rowAt s n).description ∈ descTemplates (prefixOf (rowInputs.getD n default)) ∧
    (∀ dn1 dn2 : String, ∀ s0 : RSrc,
      generate_description (prefixOf (rowInputs.getD n default)) dn1 s0 =
        generate_description (prefixOf (rowInputs.getD n default)) dn2 s0) ∧
    descTemplates (prefixOf (rowInputs.getD n default)) =
      [prefixOf (rowInputs.getD n default) ++
         "-inspired synthesis with unique timbral characteristics",
       "Models " ++ lowerStr (prefixOf (rowInputs.getD n default)) ++
         " behavior using advanced DSP techniques",
       prefixOf (rowInputs.getD n default) ++
         " patterns drive oscillator and modulation parameters",
       "Physical modeling of " ++ lowerStr (prefixOf (rowInputs.getD n default)) ++
         " acoustic properties",
       "Granular processing inspired by " ++ lowerStr (prefixOf (rowInputs.getD n default)) ++
         " textures",
       "FM synthesis capturing " ++ lowerStr (prefixOf (rowInputs.getD n default)) ++
         " harmonic relationships",
       "Wavetable morphing based on " ++ lowerStr (prefixOf (rowInputs.getD n default)) ++
         " waveforms",
       "Additive synthesis recreating " ++ lowerStr (prefixOf (rowInputs.getD n default)) ++
         " spectra",
       "Feedback network simulating " ++ lowerStr (prefixOf (rowInputs.getD n default)) ++
         " dynamics",
       "Hybrid synthesis combining multiple " ++ lowerStr (prefixOf (rowInputs.getD n default)) ++
         " characteristics"] := by
  obtain ⟨s2, hs2⟩ := genRows_getD rowInputs s n hn
  obtain ⟨s3, hd⟩ := genRow_desc_ex (rowInputs.getD n default) s2
  have hra : rowAt s n = (genRow (rowInputs.getD n default) s2).1 := by
    simp only [rowAt]; exact hs2
  refine ⟨rfl, ?_, fun dn1 dn2 s0 => rfl, rfl⟩
  rw [hra, hd]
  show ((descTemplates (prefixOf (rowInputs.getD n default))).getD
    ((drawBelow s3 (descTemplates (prefixOf (rowInputs.getD n default))).length).1) "") ∈ _
  have hlen : (descTemplates (prefixOf (rowInputs.getD n default))).length = 10 := rfl
  have hlt : (drawBelow s3 (descTemplates (prefixOf (rowInputs.getD n default))).length).1 <
      (descTemplates (prefixOf (rowInputs.getD n default))).length := by
    show s3 0 % (descTemplates (prefixOf (rowInputs.getD n default))).length <
      (descTemplates (prefixOf (rowInputs.getD n default))).length
    exact Nat.mod_lt _ (by rw [hlen]; omega)
  rw [List.getD_eq_getElem _ _ hlt]
  exact List.getElem_mem hlt

/-- Witness for C9 at the all-zero random source and the first row. -/
theorem claim_C9_witness :
    (descTemplates (prefixOf (rowInputs.getD 0 default))).length = 10 ∧
    (rowAt (fun _ => 0) 0).description ∈
      descTemplates (prefixOf (rowInputs.getD 0 default)) ∧
    (∀ dn1 dn2 : String, ∀ s0 : RSrc,
      generate_description (prefixOf (rowInputs.getD 0 default)) dn1 s0 =
        generate_description (prefixOf (rowInputs.getD 0 default)) dn2 s0) ∧
    descTemplates (prefixOf (rowInputs.getD 0 default)) =
      [prefixOf (rowInputs.getD 0 default) ++
         "-inspired synthesis with unique timbral characteristics",
       "Models " ++ lowerStr (prefixOf (rowInputs.getD 0 default)) ++
         " behavior using advanced DSP techniques",
       prefixOf (rowInputs.getD 0 default) ++
         " patterns drive oscillator and modulation parameters",
       "Physical modeling of " ++ lowerStr (prefixOf (rowInputs.getD 0 default)) ++
         " acoustic properties",
       "Granular processing inspired by " ++ lowerStr (prefixOf (rowInputs.getD 0 default)) ++
         " textures",
       "FM synthesis capturing " ++ lowerStr (prefixOf (rowInputs.getD 0 default)) ++
         " harmonic relationships",
       "Wavetable morphing based on " ++ lowerStr (prefixOf (rowInputs.getD 0 default)) ++
         " waveforms",
       "Additive synthesis recreating " ++ lowerStr (prefixOf (rowInputs.getD 0 default)) ++
         " spectra",
       "Feedback network simulating " ++ lowerStr (prefixOf (rowInputs.getD 0 default)) ++
         " dynamics",
       "Hybrid synthesis combining multiple " ++ lowerStr (prefixOf (rowInputs.getD 0 default)) ++
         " characteristics"] :=
  claim_C9 (fun _ => 0) 0 (by decide)

/-- C10: row assembly is total over the embedded tables: every domain's
prefix and synthesis-type lists are non-empty, so the modulo indices are
always in bounds, and the genre sample size min(3, number of genres)
never exceeds the genre list's length. -/
theorem claim_C10 (k : Nat) (hk : k < domains.length) (i : Nat) :
    (domains.getD k default).2.prefixes ≠ [] ∧
    (domains.getD k default).2.synthesis_types ≠ [] ∧
    i % (domains.getD k default).2.prefixes.length <
      (domains.getD k default).2.prefixes.length ∧
    i % (domains.getD k default).2.synthesis_types.length <
      (domains.getD k default).2.synthesis_types.length ∧
    min 3 (domains.getD k default).2.genres.length ≤
      (domains.getD k default).2.genres.length ∧
    ((domains.getD k default).2.prefixes[i %
      (domains.getD k default).2.prefixes.length]?).isSome ∧
    ((domains.getD k default).2.synthesis_types[i %
      (domains.getD k default).2.synthesis_types.length]?).isSome := by
  have hmem : domains.getD k default ∈ domains := by
    rw [List.getD_eq_getElem domains default hk]
    exact List.getElem_mem hk
  obtain ⟨h1, h2, h3, h4, h5, h6, h7, h8, h9⟩ := domains_facts _ hmem
  have hpne : (domains.getD k default).2.prefixes ≠ [] := h2
  have hsne : (domains.getD k default).2.synthesis_types ≠ [] :=
    List.ne_nil_of_length_pos (by rw [h3]; omega)
  have hp : 0 < (domains.getD k default).2.prefixes.length :=
    List.length_pos.mpr hpne
  have hs : 0 < (domains.getD k default).2.synthesis_types.length := by
    rw [h3]; omega
  have hmp : i % (domains.getD k default).2.prefixes.length <
      (domains.getD k default).2.prefixes.length := Nat.mod_lt _ hp
  have hms : i % (domains.getD k default).2.synthesis_types.length <
      (domains.getD k default).2.synthesis_types.length := Nat.mod_lt _ hs
  refine ⟨hpne, hsne, hmp, hms, min_le_right _ _, ?_, ?_⟩
  · rw [List.getElem?_eq_getElem hmp]; rfl
  · rw [List.getElem?_eq_getElem hms]; rfl

/-- Witness for C10 at the first domain and index 0. -/
theorem claim_C10_witness :
    (domains.getD 0 default).2.prefixes ≠ [] ∧
    (domains.getD 0 default).2.synthesis_types ≠ [] ∧
    0 % (domains.getD 0 default).2.prefixes.length <
      (domains.getD 0 default).2.prefixes.length ∧
    0 % (domains.getD 0 default).2.synthesis_types.length <
      (domains.getD 0 default).2.synthesis_types.length ∧
    min 3 (domains.getD 0 default).2.genres.length ≤
      (domains.getD 0 default).2.genres.length ∧
    ((domains.getD 0 default).2.prefixes[0 %
      (domains.getD 0 default).2.prefixes.length]?).isSome ∧
    ((domains.getD 0 default).2.synthesis_types[0 %
      (domains.getD 0 default).2.synthesis_types.length]?).isSome :=
  claim_C10 0 (by decide) 0
